import Mathlib

/-!
Shallow embedding of the background TTS job tracking core of
`wellsaid_mcp` (file `src/wellsaid_mcp/tts.py`): the task registry, the
status-query tool `get_tts_status`, the submission tool
`create_multiple_clips_and_combine`, and the background orchestrator
`create_multiple_clips_and_combine_in_background` with its per-clip
polling loop.

Modelling conventions:
  - HTTP responses are environment-provided records carrying exactly the
    fields the code reads (`status_code`, the JSON fields accessed, the
    `Content-Type` header, the raw body).
  - The batch-submission response body field `clip_ids`
    (`create_clips_response.json()["clip_ids"]`) is an
    `Option (List String)`: `none` models a body on which the
    `.json()["clip_ids"]` access raises, terminating the coroutine with
    the task left in its current state (`crashed := true` in the run
    result); `some ids` models a body carrying a clip-id list.
  - In-place mutation of the shared `TtsTask` object is rendered as
    explicit state passing; every assignment to the task's fields is
    additionally recorded in `taskTrace`, the sequence of task states
    observable through the registry during the run.
  - Pause durations (`gaps`) are Python floats the code only passes
    through, so the orchestrator is polymorphic in their type.
  - The generated output path involves the process id, random tokens and
    the filesystem, so it is an opaque environment-provided string.
-/

namespace WellsaidMcp

/-- Mirror of the Python `TaskStatus` enum in `tts.py`. -/
inductive TaskStatus where
  | started
  | processing
  | waiting
  | error
  | success
deriving DecidableEq

/-- Mirror of the pydantic model `TtsTask` in `tts.py`. -/
structure TtsTask where
  job_id : String
  status : TaskStatus
  message : String
deriving DecidableEq

/-- The process-wide `_task_registry : Dict[str, TtsTask]`, rendered as an
association list; insertion prepends and lookup takes the first match. -/
abbrev Registry := List (String × TtsTask)

/-- Lookup in the registry: `_task_registry.get(job_id)`. -/
def registryGet (reg : Registry) (k : String) : Option TtsTask :=
  match reg with
  | [] => none
  | (k', t) :: rest => if k' = k then some t else registryGet rest k

/-- The tool `get_tts_status`: return the stored task, or a synthetic
error-shaped task with message "Task not found" when the id is unknown.
Totality ("always returns a value, never throws") is by construction: the
Python body performs only a dictionary `get` and a constructor call,
neither of which can raise, and the Lean rendition is a total function. -/
def get_tts_status (reg : Registry) (job_id : String) : TtsTask :=
  match registryGet reg job_id with
  | none => { job_id := job_id, status := TaskStatus.error, message := "Task not found" }
  | some t => t

/-- The registry-facing part of `create_multiple_clips_and_combine`:
build the fresh task `TtsTask(job_id=job_id, status=STARTED,
message="Task started")`, insert it under `job_id`, and return the new
registry together with the task handle that the tool returns. -/
def submitTask (reg : Registry) (job_id : String) : Registry × TtsTask :=
  let task : TtsTask := { job_id := job_id, status := TaskStatus.started, message := "Task started" }
  ((job_id, task) :: reg, task)

/-- The operations the code ever performs on the registry: inserting a
fresh task at submission, and the background orchestrator's in-place
updates of a task's `status` and `message` fields (never its `job_id`,
which no statement in `tts.py` reassigns). No deletion operation exists
in the source. -/
inductive RegOp where
  | submit (job_id : String)
  | setStatus (job_id : String) (status : TaskStatus) (message : String)

/-- Apply one registry operation. -/
def applyOp (reg : Registry) : RegOp → Registry
  | RegOp.submit j => (submitTask reg j).1
  | RegOp.setStatus j s m =>
      reg.map (fun p =>
        (p.1, if p.1 = j then { job_id := p.2.job_id, status := s, message := m } else p.2))

/-- Apply a sequence of registry operations in order. -/
def applyOps (reg : Registry) (ops : List RegOp) : Registry :=
  ops.foldl applyOp reg

/-- A registry is well formed when every stored task's `job_id` equals its
key; the code only ever stores a task under its own `job_id`. -/
def registryWF (reg : Registry) : Prop :=
  ∀ p ∈ reg, (Prod.snd p).job_id = Prod.fst p

/-! ### Clip poller -/

/-- The poll budget: `for _ in range(20)` in both polling loops. -/
def POLL_MAX_ATTEMPTS : Nat := 20

/-- The fixed backoff: `time.sleep(3)` between poll attempts. -/
def POLL_SLEEP_SECONDS : Nat := 3

/-- Response to `GET /clips/{clip_id}`: the HTTP status code and the JSON
`status` field the code reads when the code is 200. -/
structure CheckResponse where
  status_code : Nat
  status : String
deriving DecidableEq

/-- Result of one per-clip polling loop: whether the clip became ready,
how many GET requests were issued, and how many `time.sleep(3)` calls
ran. -/
structure PollOutcome where
  ready : Bool
  attempts : Nat
  sleeps : Nat
deriving DecidableEq

/-- The inner polling loop of
`create_multiple_clips_and_combine_in_background`, parameterised by the
remaining fuel and the index of the next attempt (`check n` is the
response to the n-th GET for this clip):

    clip_ready = False
    for _ in range(20):
        check = client.get(f"/clips/\x7bclip_id\x7d")
        if check.status_code != 200:
            break
        status = check.json()["status"]
        if status == "COMPLETE":
            clip_ready = True
            break
        time.sleep(3)
-/
def pollFrom (check : Nat → CheckResponse) (start : Nat) : Nat → PollOutcome
  | 0 => { ready := false, attempts := 0, sleeps := 0 }
  | fuel + 1 =>
      let c := check start
      if c.status_code ≠ 200 then
        { ready := false, attempts := 1, sleeps := 0 }
      else if c.status = "COMPLETE" then
        { ready := true, attempts := 1, sleeps := 0 }
      else
        let rest := pollFrom check (start + 1) fuel
        { ready := rest.ready, attempts := rest.attempts + 1, sleeps := rest.sleeps + 1 }

/-- The per-clip poller with the code's fixed 20-attempt budget. -/
def pollClip (check : Nat → CheckResponse) : PollOutcome :=
  pollFrom check 0 POLL_MAX_ATTEMPTS

/-! ### The background orchestrator -/

/-- Mirror of the `ClipParams` TypedDict: one clip specification. -/
structure ClipParams where
  text : String
  speaker_id : String
  model : String
deriving DecidableEq

/-- Response to the batch submission `POST /clips`: HTTP status code, the
body's `clip_ids` JSON field (`none` when `.json()["clip_ids"]` raises),
and the raw `content` interpolated into the error message. -/
structure ClipsResponse where
  status_code : Nat
  body_clip_ids : Option (List String)
  content : String

/-- Response to `POST /clips/combine`: the `Content-Type` header (already
defaulted to `""` when absent, as `headers.get("Content-Type", "")` does)
and the binary body `content`. -/
structure CombineResponse where
  contentType : String
  content : String

/-- The remote collaborators of one orchestrator run: the batch response,
the per-clip status responses (`check cid n` answers the n-th
`GET /clips/\x7bcid\x7d`), the combine response, and the generated output
path (opaque: it mixes the pid, random tokens and the filesystem). -/
structure Env where
  clipsResp : ClipsResponse
  check : String → Nat → CheckResponse
  combineResp : CombineResponse
  outputFile : String

/-- Accumulator of the per-clip waiting loop. -/
structure LoopState where
  task : TtsTask
  completed : Nat
  pollTrace : List (String × PollOutcome)
  progressEvents : List (Nat × Nat)
  taskTrace : List TtsTask
deriving DecidableEq

/-- Everything one orchestrator run does, as observable effects:
the ordered payload sent to `POST /clips`, the successive task states
written to the shared task (snapshots after each mutation), the clips
polled in order with their poll outcomes, the progress notifications
`(completed, total)`, the combine request (clip ids and gaps) if one was
issued, the bytes written to the output file if a write happened, whether
the coroutine died with an uncaught exception, and the final task state. -/
structure RunResult (γ : Type) where
  clipsRequestBody : List ClipParams
  taskTrace : List TtsTask
  pollTrace : List (String × PollOutcome)
  progressEvents : List (Nat × Nat)
  combineRequest : Option (List String × Option (List γ))
  fileWritten : Option String
  crashed : Bool
  task : TtsTask
deriving DecidableEq

/-- The `for clip_id in clip_ids` loop of the orchestrator, from its
source (mutations rendered as state passing; `if clip_ready` and
`if not clip_ready` are exclusive, so they are merged):

    for clip_id in clip_ids:
        clip_ready = False
        for _ in range(20): ...   -- pollClip
        if clip_ready:
            completed_clips += 1
            await context.report_progress(completed_clips, total_clips, ...)
        if not clip_ready:
            task.status = TaskStatus.ERROR
            task.message = "Clips did not finish processing in time"
-/
def clipLoop (check : String → Nat → CheckResponse) (total : Nat) :
    List String → LoopState → LoopState
  | [], st => st
  | cid :: rest, st =>
      let outcome := pollClip (check cid)
      let completed2 := if outcome.ready then st.completed + 1 else st.completed
      let errTask : TtsTask :=
        { job_id := st.task.job_id, status := TaskStatus.error,
          message := "Clips did not finish processing in time" }
      clipLoop check total rest
        { task := if outcome.ready then st.task else errTask
          completed := completed2
          pollTrace := st.pollTrace ++ [(cid, outcome)]
          progressEvents :=
            if outcome.ready then st.progressEvents ++ [(completed2, total)]
            else st.progressEvents
          taskTrace :=
            if outcome.ready then st.taskTrace else st.taskTrace ++ [errTask] }

/-- The body of `create_multiple_clips_and_combine_in_background`,
translated statement by statement. Note three properties of the source
that the translation preserves: after a non-200 batch response the code
sets the task to `ERROR` but falls through to the
`create_clips_response.json()["clip_ids"]` access (the `return` is
commented out); after a clip times out the loop keeps iterating and the
combine request is still issued; and after a `Content-Type` mismatch the
code still writes `combine_response.content` to the output file and
unconditionally ends with `task.status = SUCCESS`. -/
def runBackground {γ : Type} (env : Env) (task : TtsTask)
    (clip_values : List ClipParams) (gaps : Option (List γ)) : RunResult γ :=
  let task1 : TtsTask := { job_id := task.job_id, status := TaskStatus.processing, message := task.message }
  let resp := env.clipsResp
  let errTask1 : TtsTask :=
    { job_id := task1.job_id, status := TaskStatus.error,
      message := "Failed to create clips : " ++ resp.content }
  let task2 := if resp.status_code ≠ 200 then errTask1 else task1
  let trace2 := if resp.status_code ≠ 200 then [task1, errTask1] else [task1]
  match resp.body_clip_ids with
  | none =>
      { clipsRequestBody := clip_values, taskTrace := trace2, pollTrace := [],
        progressEvents := [], combineRequest := none, fileWritten := none,
        crashed := true, task := task2 }
  | some clip_ids =>
      let total := clip_ids.length
      let st := clipLoop env.check total clip_ids
        { task := task2, completed := 0, pollTrace := [], progressEvents := [],
          taskTrace := trace2 }
      let mime := env.combineResp.contentType
      let errTask3 : TtsTask :=
        { job_id := st.task.job_id, status := TaskStatus.error,
          message := "Bad result type on combining clips" }
      let task3 := if mime ≠ "audio/mpeg" then errTask3 else st.task
      let trace3 := if mime ≠ "audio/mpeg" then st.taskTrace ++ [errTask3] else st.taskTrace
      let task4 : TtsTask :=
        { job_id := task3.job_id, status := TaskStatus.success,
          message := "Saved file to " ++ env.outputFile }
      { clipsRequestBody := clip_values
        taskTrace := trace3 ++ [task4]
        pollTrace := st.pollTrace
        progressEvents := st.progressEvents
        combineRequest := some (clip_ids, gaps)
        fileWritten := some env.combineResp.content
        crashed := false
        task := task4 }

/-! ### Concrete scenarios evaluated in the analyses -/

/-- The task handle `create_multiple_clips_and_combine` stores and returns
for a fresh job id. -/
def jobTask (j : String) : TtsTask :=
  { job_id := j, status := TaskStatus.started, message := "Task started" }

/-- A sample clip specification. -/
def specA : ClipParams := { text := "hello", speaker_id := "3", model := "caruso" }

/-- Scenario for the timeout path: three clips; the second never reports
COMPLETE, the first and third complete on their first poll; the combine
endpoint answers with proper audio. -/
def c1env : Env :=
  { clipsResp := { status_code := 200, body_clip_ids := some ["c1", "c2", "c3"], content := "" }
    check := fun cid _ =>
      if cid = "c2" then { status_code := 200, status := "PROCESSING" }
      else { status_code := 200, status := "COMPLETE" }
    combineResp := { contentType := "audio/mpeg", content := "AUDIO" }
    outputFile := "out1.mp3" }

/-- The run of the orchestrator on the timeout scenario. -/
def c1run : RunResult Nat := runBackground c1env (jobTask "j1") [specA, specA, specA] none

/-- Scenario for the failed batch submission: `POST /clips` answers 500,
but its body still parses and carries a clip-id list, so the
`.json()["clip_ids"]` access succeeds; everything downstream succeeds. -/
def c2env : Env :=
  { clipsResp := { status_code := 500, body_clip_ids := some ["c1"], content := "boom" }
    check := fun _ _ => { status_code := 200, status := "COMPLETE" }
    combineResp := { contentType := "audio/mpeg", content := "AUDIO" }
    outputFile := "out2.mp3" }

/-- The run of the orchestrator on the failed-batch scenario. -/
def c2run : RunResult Nat := runBackground c2env (jobTask "j2") [specA] none

/-- Scenario for the content-type mismatch: one clip that completes
immediately, but `POST /clips/combine` answers `text/plain`. -/
def c3env : Env :=
  { clipsResp := { status_code := 200, body_clip_ids := some ["c1"], content := "" }
    check := fun _ _ => { status_code := 200, status := "COMPLETE" }
    combineResp := { contentType := "text/plain", content := "NOTAUDIO" }
    outputFile := "out3.mp3" }

/-- The run of the orchestrator on the mismatch scenario. -/
def c3run : RunResult Nat := runBackground c3env (jobTask "j3") [specA] none

/-- Scenario for terminality of `Error`: a single clip that never
completes (every poll answers PROCESSING), then a well-typed combine
response. -/
def c4env : Env :=
  { clipsResp := { status_code := 200, body_clip_ids := some ["c1"], content := "" }
    check := fun _ _ => { status_code := 200, status := "PROCESSING" }
    combineResp := { contentType := "audio/mpeg", content := "AUDIO" }
    outputFile := "out4.mp3" }

/-- The run of the orchestrator on the terminality scenario. -/
def c4run : RunResult Nat := runBackground c4env (jobTask "j4") [specA] none

/-- Scenario for gaps-length validation: four clips, all completing at
once, submitted with a gaps list of length 2 (neither 0, nor 1, nor
n−1 = 3). -/
def c5env : Env :=
  { clipsResp := { status_code := 200, body_clip_ids := some ["c1", "c2", "c3", "c4"], content := "" }
    check := fun _ _ => { status_code := 200, status := "COMPLETE" }
    combineResp := { contentType := "audio/mpeg", content := "AUDIO" }
    outputFile := "out5.mp3" }

/-- The run of the orchestrator on the invalid-gaps scenario. -/
def c5run : RunResult Nat :=
  runBackground c5env (jobTask "j5") [specA, specA, specA, specA] (some [7, 9])

/-- A small environment used to instantiate the general gaps pass-through
theorem. -/
def c5wenv : Env :=
  { clipsResp := { status_code := 200, body_clip_ids := some ["x"], content := "" }
    check := fun _ _ => { status_code := 200, status := "COMPLETE" }
    combineResp := { contentType := "audio/mpeg", content := "AUDIO" }
    outputFile := "outw5.mp3" }

/-- A small environment used to instantiate the ordering theorem. -/
def c6wenv : Env :=
  { clipsResp := { status_code := 200, body_clip_ids := some ["k1", "k2"], content := "" }
    check := fun _ _ => { status_code := 200, status := "COMPLETE" }
    combineResp := { contentType := "audio/mpeg", content := "AUDIO" }
    outputFile := "outw6.mp3" }

/-- A clip whose first status check already reports COMPLETE. -/
def c9checkA : Nat → CheckResponse := fun _ => { status_code := 200, status := "COMPLETE" }

/-- A clip whose first status check fails at the transport level. -/
def c9checkB : Nat → CheckResponse := fun _ => { status_code := 500, status := "" }

/-- A clip that keeps reporting PROCESSING forever. -/
def c9checkC : Nat → CheckResponse := fun _ => { status_code := 200, status := "PROCESSING" }

/-! ### Lemmas about the per-clip poller -/

/-- The poller never issues more GET requests than its fuel allows. -/
theorem pollFrom_attempts_le (check : Nat → CheckResponse) :
    ∀ (fuel start : Nat), (pollFrom check start fuel).attempts ≤ fuel := by
  intro fuel
  induction fuel with
  | zero => intro start; simp [pollFrom]
  | succ f ih =>
      intro start
      simp only [pollFrom]
      split
      · simp
      · split
        · simp
        · simp only []
          have := ih (start + 1)
          omega

/-- If every attempt in the budget answers 200 with a non-COMPLETE
status, the poller exhausts its fuel: not ready, `fuel` requests,
`fuel` sleeps. -/
theorem pollFrom_pending (check : Nat → CheckResponse) :
    ∀ (fuel start : Nat),
      (∀ j, j < fuel → (check (start + j)).status_code = 200 ∧ (check (start + j)).status ≠ "COMPLETE") →
      pollFrom check start fuel = { ready := false, attempts := fuel, sleeps := fuel } := by
  intro fuel
  induction fuel with
  | zero => intro start _; simp [pollFrom]
  | succ f ih =>
      intro start h
      have h0 := h 0 (by omega)
      simp only [Nat.add_zero] at h0
      have hr := ih (start + 1) (fun j hj => by
        have e : start + 1 + j = start + (j + 1) := by omega
        rw [e]
        exact h (j + 1) (by omega))
      simp [pollFrom, h0.1, h0.2, hr]

/-- If the attempts before index `i` all answer 200 non-COMPLETE and
attempt `i` answers 200 COMPLETE within the budget, the poller reports
ready after exactly `i + 1` requests and `i` sleeps. -/
theorem pollFrom_first_complete (check : Nat → CheckResponse) :
    ∀ (i fuel start : Nat), i < fuel →
      (∀ j, j < i → (check (start + j)).status_code = 200 ∧ (check (start + j)).status ≠ "COMPLETE") →
      (check (start + i)).status_code = 200 →
      (check (start + i)).status = "COMPLETE" →
      pollFrom check start fuel = { ready := true, attempts := i + 1, sleeps := i } := by
  intro i
  induction i with
  | zero =>
      intro fuel start hlt hpre hc hs
      obtain ⟨f, rfl⟩ : ∃ f, fuel = f + 1 := ⟨fuel - 1, by omega⟩
      simp only [Nat.add_zero] at hc hs
      simp [pollFrom, hc, hs]
  | succ i ih =>
      intro fuel start hlt hpre hc hs
      obtain ⟨f, rfl⟩ : ∃ f, fuel = f + 1 := ⟨fuel - 1, by omega⟩
      have h0 := hpre 0 (by omega)
      simp only [Nat.add_zero] at h0
      have hr := ih f (start + 1) (by omega)
        (fun j hj => by
          have e : start + 1 + j = start + (j + 1) := by omega
          rw [e]
          exact hpre (j + 1) (by omega))
        (by
          have e : start + 1 + i = start + (i + 1) := by omega
          rw [e]; exact hc)
        (by
          have e : start + 1 + i = start + (i + 1) := by omega
          rw [e]; exact hs)
      simp [pollFrom, h0.1, h0.2, hr]

/-- If the attempts before index `i` all answer 200 non-COMPLETE and
attempt `i` answers with a non-200 code within the budget, the poller
gives up at once: not ready after exactly `i + 1` requests. -/
theorem pollFrom_first_fail (check : Nat → CheckResponse) :
    ∀ (i fuel start : Nat), i < fuel →
      (∀ j, j < i → (check (start + j)).status_code = 200 ∧ (check (start + j)).status ≠ "COMPLETE") →
      (check (start + i)).status_code ≠ 200 →
      pollFrom check start fuel = { ready := false, attempts := i + 1, sleeps := i } := by
  intro i
  induction i with
  | zero =>
      intro fuel start hlt hpre hc
      obtain ⟨f, rfl⟩ : ∃ f, fuel = f + 1 := ⟨fuel - 1, by omega⟩
      simp only [Nat.add_zero] at hc
      simp [pollFrom, hc]
  | succ i ih =>
      intro fuel start hlt hpre hc
      obtain ⟨f, rfl⟩ : ∃ f, fuel = f + 1 := ⟨fuel - 1, by omega⟩
      have h0 := hpre 0 (by omega)
      simp only [Nat.add_zero] at h0
      have hr := ih f (start + 1) (by omega)
        (fun j hj => by
          have e : start + 1 + j = start + (j + 1) := by omega
          rw [e]
          exact hpre (j + 1) (by omega))
        (by
          have e : start + 1 + i = start + (i + 1) := by omega
          rw [e]; exact hc)
      simp [pollFrom, h0.1, h0.2, hr]

/-- Claim C9: the per-clip poller performs at most 20 status-check
attempts (with a fixed `time.sleep(3)` between attempts, counted in
`sleeps`); it reports ready as soon as an attempt returns COMPLETE (the
first terminating attempt being the i-th, it uses exactly i+1 requests);
it reports not-ready immediately when an attempt returns a non-200
response; and it reports not-ready after exactly 20 attempts when the
budget is exhausted without completion — so each clip's wait is
bounded. -/
theorem C9_poller_bounded (check : Nat → CheckResponse) :
    (pollClip check).attempts ≤ POLL_MAX_ATTEMPTS ∧
    (∀ i, i < POLL_MAX_ATTEMPTS →
      (∀ j, j < i → (check j).status_code = 200 ∧ (check j).status ≠ "COMPLETE") →
      ((check i).status_code = 200 → (check i).status = "COMPLETE" →
          pollClip check = { ready := true, attempts := i + 1, sleeps := i }) ∧
      ((check i).status_code ≠ 200 →
          pollClip check = { ready := false, attempts := i + 1, sleeps := i })) ∧
    ((∀ j, j < POLL_MAX_ATTEMPTS → (check j).status_code = 200 ∧ (check j).status ≠ "COMPLETE") →
      pollClip check = { ready := false, attempts := POLL_MAX_ATTEMPTS, sleeps := POLL_MAX_ATTEMPTS }) := by
  refine ⟨pollFrom_attempts_le check POLL_MAX_ATTEMPTS 0, ?_, ?_⟩
  · intro i hi hpre
    constructor
    · intro hc hs
      have := pollFrom_first_complete check i POLL_MAX_ATTEMPTS 0 hi
        (fun j hj => by simpa using hpre j hj) (by simpa using hc) (by simpa using hs)
      simpa [pollClip] using this
    · intro hc
      have := pollFrom_first_fail check i POLL_MAX_ATTEMPTS 0 hi
        (fun j hj => by simpa using hpre j hj) (by simpa using hc)
      simpa [pollClip] using this
  · intro hall
    have := pollFrom_pending check POLL_MAX_ATTEMPTS 0 (fun j hj => by simpa using hall j hj)
    simpa [pollClip] using this

/-- Concrete instantiations of C9: a clip completing on its first check
is reported ready after one request; a transport failure on the first
check gives up after one request; a clip stuck in PROCESSING exhausts
all 20 attempts. -/
theorem C9_poller_bounded_witness :
    pollClip c9checkA = { ready := true, attempts := 1, sleeps := 0 } ∧
    pollClip c9checkB = { ready := false, attempts := 1, sleeps := 0 } ∧
    pollClip c9checkC = { ready := false, attempts := 20, sleeps := 20 } := by
  refine ⟨?_, ?_, ?_⟩
  · exact ((C9_poller_bounded c9checkA).2.1 0 (by decide)
      (fun j hj => absurd hj (Nat.not_lt_zero j))).1 rfl rfl
  · exact ((C9_poller_bounded c9checkB).2.1 0 (by decide)
      (fun j hj => absurd hj (Nat.not_lt_zero j))).2 (by decide)
  · exact (C9_poller_bounded c9checkC).2.2
      (fun j hj => ⟨rfl, fun hco => by simp [c9checkC] at hco⟩)

/-! ### Lemmas about the task registry -/

/-- A key present in the registry stays present across any single
registry operation: submission prepends, and a status update only maps
values, leaving every key in place. -/
theorem registryGet_applyOp_isSome (reg : Registry) (op : RegOp) (k : String)
    (h : (registryGet reg k).isSome) : (registryGet (applyOp reg op) k).isSome := by
  cases op with
  | submit j =>
      simp only [applyOp, submitTask, registryGet]
      split
      · simp
      · exact h
  | setStatus j s m =>
      induction reg with
      | nil => simp [registryGet] at h
      | cons p rest ih =>
          obtain ⟨k1, t1⟩ := p
          simp only [applyOp, List.map_cons, registryGet] at h ⊢
          by_cases hk : k1 = k
          · simp [hk]
          · simp only [hk, ite_false, if_neg, not_false_iff] at h ⊢
            exact ih h

/-- A key present in the registry stays present across any sequence of
registry operations. -/
theorem registryGet_applyOps_isSome :
    ∀ (ops : List RegOp) (reg : Registry) (k : String),
      (registryGet reg k).isSome → (registryGet (applyOps reg ops) k).isSome := by
  intro ops
  induction ops with
  | nil => intro reg k h; simpa [applyOps] using h
  | cons op rest ih =>
      intro reg k h
      have h1 := registryGet_applyOp_isSome reg op k h
      simpa [applyOps] using ih (applyOp reg op) k h1

/-- Claim C7: `create_multiple_clips_and_combine` inserts a registry
entry with status `Started` under the fresh job id before returning the
handle (`_task_registry[job_id] = task` precedes `return task`), and no
operation the code ever performs on the registry deletes an entry; hence
for any job id obtained from a submission, the registry lookup that
`get_tts_status` performs keeps succeeding — it never takes the
"Task not found" branch — for any later sequence of operations. -/
theorem C7_registry_entry_persists (reg : Registry) (j : String) (ops : List RegOp) :
    registryGet (submitTask reg j).1 j =
      some { job_id := j, status := TaskStatus.started, message := "Task started" } ∧
    (registryGet (applyOps (submitTask reg j).1 ops) j).isSome ∧
    get_tts_status (applyOps (submitTask reg j).1 ops) j =
      (registryGet (applyOps (submitTask reg j).1 ops) j).getD
        { job_id := j, status := TaskStatus.error, message := "Task not found" } := by
  have hins : registryGet (submitTask reg j).1 j =
      some { job_id := j, status := TaskStatus.started, message := "Task started" } := by
    simp [submitTask, registryGet]
  refine ⟨hins, registryGet_applyOps_isSome ops _ j (by simp [hins]), ?_⟩
  unfold get_tts_status
  cases registryGet (applyOps (submitTask reg j).1 ops) j <;> simp

/-- Claim C8: for every job id with no registry entry, `get_tts_status`
returns a task-shaped value with status `Error` and message
"Task not found". Totality over arbitrary input strings holds by
construction: the embedding of `get_tts_status` is a total function (the
Python body is a dictionary `get` plus a constructor call, neither of
which raises). -/
theorem C8_unknown_job (reg : Registry) (j : String)
    (h : registryGet reg j = none) :
    get_tts_status reg j =
      { job_id := j, status := TaskStatus.error, message := "Task not found" } := by
  simp [get_tts_status, h]

/-- Concrete instantiation of C8 at the empty registry and an arbitrary
id string. -/
theorem C8_unknown_job_witness :
    get_tts_status ([] : Registry) "deadbeefdeadbeef" =
      { job_id := "deadbeefdeadbeef", status := TaskStatus.error, message := "Task not found" } :=
  C8_unknown_job [] "deadbeefdeadbeef" rfl

/-- A successful registry lookup returns an entry of the searched key. -/
theorem registryGet_mem (reg : Registry) (k : String) (t : TtsTask)
    (h : registryGet reg k = some t) : (k, t) ∈ reg := by
  induction reg with
  | nil => simp [registryGet] at h
  | cons p rest ih =>
      obtain ⟨k1, t1⟩ := p
      by_cases hk : k1 = k
      · subst hk
        simp only [registryGet, if_pos, ite_true] at h
        simp [← Option.some_inj.mp h]
      · simp only [registryGet, hk, ite_false, if_neg] at h
        exact List.mem_cons_of_mem _ (ih h)

/-- Every registry operation preserves well-formedness: submission stores
the fresh task under its own `job_id`, and a status update keeps each
entry's `job_id` (the Python code never reassigns `task.job_id`). -/
theorem registryWF_applyOp (reg : Registry) (op : RegOp) (h : registryWF reg) :
    registryWF (applyOp reg op) := by
  cases op with
  | submit j =>
      intro p hp
      simp only [applyOp, submitTask, List.mem_cons] at hp
      cases hp with
      | inl he => simp [he]
      | inr hm => exact h p hm
  | setStatus j s m =>
      intro p hp
      simp only [applyOp, List.mem_map] at hp
      obtain ⟨q, hq, he⟩ := hp
      subst he
      by_cases hj : q.1 = j <;> simp [hj, h q hq]

/-- Well-formedness is preserved by any sequence of registry
operations. -/
theorem registryWF_applyOps :
    ∀ (ops : List RegOp) (reg : Registry), registryWF reg → registryWF (applyOps reg ops) := by
  intro ops
  induction ops with
  | nil => intro reg h; simpa [applyOps] using h
  | cons op rest ih =>
      intro reg h
      simpa [applyOps] using ih (applyOp reg op) (registryWF_applyOp reg op h)

/-- On a well-formed registry, the status query echoes the queried id. -/
theorem get_tts_status_job_id (reg : Registry) (k : String) (h : registryWF reg) :
    (get_tts_status reg k).job_id = k := by
  unfold get_tts_status
  cases hg : registryGet reg k with
  | none => rfl
  | some t => exact h (k, t) (registryGet_mem reg k t hg)

/-- Claim C10: starting from the empty registry, after any sequence of
the operations the code performs (submissions and the orchestrator's
status/message updates), `get_tts_status s` returns a task whose
`job_id` equals `s` — for registered ids because every stored task was
created with `job_id` equal to its key and updates never touch it, and
for unknown ids because the synthetic "Task not found" task echoes the
input. -/
theorem C10_status_echoes_job_id (ops : List RegOp) (j : String) :
    (get_tts_status (applyOps [] ops) j).job_id = j :=
  get_tts_status_job_id _ j
    (registryWF_applyOps ops [] (fun p hp => absurd hp (List.not_mem_nil p)))

/-! ### Lemmas about the orchestrator -/

/-- The per-clip waiting loop polls every clip id it is given, in list
order, appending one poll outcome per clip to the trace. -/
theorem clipLoop_pollTrace (check : String → Nat → CheckResponse) (total : Nat) :
    ∀ (ids : List String) (st : LoopState),
      (clipLoop check total ids st).pollTrace =
        st.pollTrace ++ ids.map (fun cid => (cid, pollClip (check cid))) := by
  intro ids
  induction ids with
  | nil => intro st; simp [clipLoop]
  | cons cid rest ih =>
      intro st
      rw [clipLoop, ih]
      simp

/-- Claim C6: for every run that reaches the clip-id list, the orderly
chain holds end to end — the payload of the single `POST /clips` request
is exactly the submitted clip-specification list (the code passes
`clip_values` through unreordered, so by the remote collaborator's
order-preserving contract the returned ids correspond positionally to
the specifications), the clips are polled in exactly the order of the
returned clip-id list, and the `POST /clips/combine` payload carries
exactly that same clip-id list. -/
theorem C6_ordering {γ : Type} (env : Env) (task : TtsTask) (cvs : List ClipParams)
    (gaps : Option (List γ)) (ids : List String)
    (h : env.clipsResp.body_clip_ids = some ids) :
    (runBackground env task cvs gaps).clipsRequestBody = cvs ∧
    (runBackground env task cvs gaps).pollTrace.map Prod.fst = ids ∧
    (runBackground env task cvs gaps).combineRequest = some (ids, gaps) := by
  simp only [runBackground]
  rw [h]
  simp [clipLoop_pollTrace, List.map_map, Function.comp_def]

/-- Concrete instantiation of C6: two clips, polled and combined in the
returned order. -/
theorem C6_ordering_witness :
    (runBackground c6wenv (jobTask "w6") [specA, specA] (some ([5] : List Nat))).clipsRequestBody = [specA, specA] ∧
    (runBackground c6wenv (jobTask "w6") [specA, specA] (some ([5] : List Nat))).pollTrace.map Prod.fst = ["k1", "k2"] ∧
    (runBackground c6wenv (jobTask "w6") [specA, specA] (some ([5] : List Nat))).combineRequest = some (["k1", "k2"], some [5]) :=
  C6_ordering c6wenv (jobTask "w6") [specA, specA] (some [5]) ["k1", "k2"] rfl

/-! ### Claims settled against concrete runs -/

/-- Claim C1 (code bug): on the batch where clip c2 never completes
within its 20-attempt budget, the job's status is indeed set to `Error`
with message "Clips did not finish processing in time", but contrary to
the claim the orchestrator does NOT stop: clip c3 is still polled after
the failure, the `POST /clips/combine` request is still issued, and the
run ends by overwriting the status with `Success` (the early `return`
after the error assignment is commented out in the source). -/
theorem C1_timeout_continues :
    c1run.taskTrace.map TtsTask.status =
      [TaskStatus.processing, TaskStatus.error, TaskStatus.success] ∧
    c1run.taskTrace.map TtsTask.message =
      ["Task started", "Clips did not finish processing in time", "Saved file to out1.mp3"] ∧
    c1run.pollTrace.map Prod.fst = ["c1", "c2", "c3"] ∧
    c1run.combineRequest = some (["c1", "c2", "c3"], none) ∧
    c1run.task.status = TaskStatus.success := by decide

/-- Claim C2 (code bug): on a batch-submission response with status 500
whose body still parses to a clip-id list, the job's status is set to
`Error` with a message embedding the response detail, but contrary to
the claim the orchestrator does NOT stop: the clip is polled, the
combine request is issued, the output file is written, and the status is
overwritten with `Success` (the `return` after the error assignment is
commented out and the code falls through to the
`create_clips_response.json()["clip_ids"]` access). -/
theorem C2_batch_failure_continues :
    c2run.taskTrace.map TtsTask.status =
      [TaskStatus.processing, TaskStatus.error, TaskStatus.success] ∧
    c2run.taskTrace.map TtsTask.message =
      ["Task started", "Failed to create clips : boom", "Saved file to out2.mp3"] ∧
    c2run.pollTrace.map Prod.fst = ["c1"] ∧
    c2run.combineRequest = some (["c1"], none) ∧
    c2run.fileWritten = some "AUDIO" ∧
    c2run.crashed = false := by decide

/-- Claim C3 (code bug): on a combine response with `Content-Type:
text/plain`, the job's status is set to `Error` with message "Bad result
type on combining clips", but contrary to the claim the non-audio body
is still written to the output file and the status is overwritten with
`Success` (the `return` after the error assignment is commented out, and
the write and the final `SUCCESS` assignment are unconditional). -/
theorem C3_bad_mime_still_writes :
    c3run.taskTrace.map TtsTask.status =
      [TaskStatus.processing, TaskStatus.error, TaskStatus.success] ∧
    c3run.taskTrace.map TtsTask.message =
      ["Task started", "Bad result type on combining clips", "Saved file to out3.mp3"] ∧
    c3run.fileWritten = some "NOTAUDIO" ∧
    c3run.task.status = TaskStatus.success := by decide

/-- Claim C4 (code bug): `Error` is not terminal on the code. On a run
whose single clip times out, the task states observable through the
registry are `Processing`, then `Error` with the timeout message, then
`Success` — so a job whose status was set to `Error` changes again, and
two status queries issued on either side of the overwrite return
different results. -/
theorem C4_error_not_terminal :
    c4run.taskTrace =
      [{ job_id := "j4", status := TaskStatus.processing, message := "Task started" },
       { job_id := "j4", status := TaskStatus.error,
         message := "Clips did not finish processing in time" },
       { job_id := "j4", status := TaskStatus.success, message := "Saved file to out4.mp3" }] ∧
    c4run.task.status = TaskStatus.success := by decide

/-- Claim C5, counterexample: four clips submitted with a gaps list of
length 2 — which is neither 0, nor 1, nor n−1 = 3 — are not rejected:
the combine request is still issued, carrying the invalid gaps list
unchanged. No gaps-length validation exists anywhere in the code. -/
theorem C5_counterexample :
    c5run.combineRequest = some (["c1", "c2", "c3", "c4"], some [7, 9]) ∧
    ¬(([7, 9] : List Nat).length = 0 ∨ ([7, 9] : List Nat).length = 1 ∨
      ([7, 9] : List Nat).length = (["c1", "c2", "c3", "c4"] : List String).length - 1) := by
  decide

/-- Claim C5 as amended: no gaps-length validation is performed at all;
whenever the batch response body yields a clip-id list, the combine
request is issued and carries exactly the submitted gaps list, whatever
its length — 0, 1, n−1, or any other. -/
theorem C5_gaps_passthrough {γ : Type} (env : Env) (task : TtsTask) (cvs : List ClipParams)
    (gaps : Option (List γ)) (ids : List String)
    (h : env.clipsResp.body_clip_ids = some ids) :
    (runBackground env task cvs gaps).combineRequest = some (ids, gaps) := by
  simp only [runBackground]
  rw [h]

/-- Concrete instantiation of the gaps pass-through: a single clip with
a length-2 gaps list reaches the combine request unchanged. -/
theorem C5_gaps_passthrough_witness :
    (runBackground c5wenv (jobTask "w5") [specA] (some ([1, 2] : List Nat))).combineRequest =
      some (["x"], some [1, 2]) :=
  C5_gaps_passthrough c5wenv (jobTask "w5") [specA] (some [1, 2]) ["x"] rfl

end WellsaidMcp
